import Mathlib

/-!
A shallow embedding of the Weather-MTIME command-line weather tool
(TypeScript) in Lean 4, together with theorems about its domain model,
provider clients, cache and repository orchestration.

Conventions of the embedding:
* JavaScript numbers are modelled as rationals (`ℚ`).  `NaN` has no
  rational counterpart; where the source tests `isNaN` on a value that can
  actually be `NaN` at runtime we model the value as a `JsNum` record with
  an explicit `nan` flag.  Elsewhere (values produced by arithmetic on
  already-validated numbers) the `isNaN` disjunct of a check is vacuous
  and is dropped with a comment.
* `Date` values are modelled as epoch milliseconds (`ℤ`); `Date.now()`
  becomes an explicit `now : ℤ` parameter.
* Thrown JavaScript errors are modelled by the inductive `JsThrow`, one
  constructor per error class of `shared/errors/DomainError.ts` plus
  `plainError` for `new Error(msg)`.  Fallible code returns
  `Except JsThrow α`.
* `async`/`await` sequencing is direct sequencing; external collaborators
  (HTTP client, Mongo-backed repository) become oracle functions passed in
  as parameters, and the repository functions additionally return the list
  of client calls they issued, so that "never invokes X" claims are
  statements about that trace.
-/

set_option maxHeartbeats 1000000

namespace WeatherCLI

/-- Decidable equality for `Except` results (so concrete runs of the
embedded functions can be settled by `decide`). -/
instance instDecEqExcept {ε α : Type} [DecidableEq ε] [DecidableEq α] :
    DecidableEq (Except ε α) := fun a b =>
  match a, b with
  | .ok x, .ok y => if h : x = y then .isTrue (by rw [h]) else .isFalse (by simp [h])
  | .error x, .error y => if h : x = y then .isTrue (by rw [h]) else .isFalse (by simp [h])
  | .ok _, .error _ => .isFalse (by simp)
  | .error _, .ok _ => .isFalse (by simp)

/-- The apostrophe character (used by the city-name character class and in
error messages of `DomainError.ts`). -/
def apos : Char := Char.ofNat 39

/-- Does `sub` occur as a contiguous run inside `s`? (Character-level so
the kernel can evaluate it.) -/
def containsSub : List Char → List Char → Bool
  | _, [] => true
  | [], _ => false
  | c :: rest, sub => sub.isPrefixOf (c :: rest) || containsSub rest sub

/-- JavaScript `String.prototype.includes`. -/
def jsIncludes (s sub : String) : Bool :=
  containsSub s.toList sub.toList

/-- JavaScript `toUpperCase` on one character (ASCII; the country codes
and messages the claims exercise are ASCII). -/
def jsToUpperChar (c : Char) : Char :=
  if 'a' ≤ c ∧ c ≤ 'z' then Char.ofNat (c.toNat - 32) else c

/-- JavaScript `String.prototype.toUpperCase` (ASCII). -/
def jsToUpper (s : String) : String := String.mk (s.toList.map jsToUpperChar)

/-- JavaScript `toLowerCase` on one character (ASCII). -/
def jsToLowerChar (c : Char) : Char :=
  if 'A' ≤ c ∧ c ≤ 'Z' then Char.ofNat (c.toNat + 32) else c

/-- JavaScript `String.prototype.toLowerCase` (ASCII). -/
def jsToLower (s : String) : String := String.mk (s.toList.map jsToLowerChar)

/-- JavaScript `String.prototype.trim`. -/
def jsTrim (s : String) : String :=
  String.mk (((s.toList.dropWhile Char.isWhitespace).reverse.dropWhile
    Char.isWhitespace).reverse)

/-- JavaScript `x || d` for numbers (`0` is falsy; `NaN` cannot occur on the
rational model). -/
def jsOrQ (x d : ℚ) : ℚ :=
  if x = 0 then d else x

/-- JavaScript `x || d` where `x : number | undefined` (`undefined` and `0`
are falsy). -/
def jsOrOptQ (x : Option ℚ) (d : ℚ) : ℚ :=
  match x with
  | none => d
  | some v => jsOrQ v d

/-- The literal `-273.15` of `Weather.validateTemperature`, in reduced form
`-5463/20` so the kernel can compare against it without running
`Nat.gcd`. -/
def absoluteZeroCelsius : ℚ := Rat.mk' (-5463) 20 (by norm_num) (by norm_num)

/-- The literal `273.15` of the Kelvin/Celsius conversions (reduced form
`5463/20`). -/
def kelvinOffset : ℚ := Rat.mk' 5463 20 (by norm_num) (by norm_num)

/-- A JavaScript number that may be `NaN` (used where the source genuinely
branches on `isNaN` of an externally supplied value). -/
structure JsNum where
  nan : Bool := false
  val : ℚ := 0
deriving DecidableEq, Repr

/-- Thrown errors: one constructor per class in
`shared/errors/DomainError.ts`, plus `plainError` for `new Error(msg)`. -/
inductive JsThrow where
  | plainError (message : String)
  | notFoundError (resource identifier : String)
  | validationError (message : String)
  | configurationError (service : String) (missingField : Option String)
  | apiError (message service : String) (statusCode : Option ℤ) (isOperational : Bool)
  | applicationError (message code : String)
deriving DecidableEq, Repr

/-- The `message` property of the thrown error, as each `DomainError`
subclass constructor computes it. -/
def JsThrow.message : JsThrow → String
  | .plainError m => m
  | .notFoundError resource identifier =>
      resource ++ " con identificador " ++ apos.toString ++ identifier ++
        apos.toString ++ " no fue encontrado"
  | .validationError m => m
  | .configurationError service missingField =>
      match missingField with
      | some f => "Falta configuración " ++ apos.toString ++ f ++ apos.toString ++ " para " ++ service
      | none => "Configuración incompleta para " ++ service
  | .apiError m service _ _ => "Error en servicio " ++ service ++ ": " ++ m
  | .applicationError m _ => m

/-- `ApiError.timeout(service, timeoutMs)` of `DomainError.ts`. -/
def apiErrorTimeout (service : String) (timeoutMs : ℤ) : JsThrow :=
  .apiError ("Tiempo de espera agotado (" ++ toString timeoutMs ++ "ms)") service none true

/-- `ApiError.rateLimit(service, retryAfter?)` of `DomainError.ts`.  The
`retryAfter` argument is the raw `retry-after` header when present (the
keyed client passes the header string; an empty string is falsy). -/
def apiErrorRateLimit (service : String) (retryAfter : Option String) : JsThrow :=
  let message :=
    match retryAfter with
    | some s =>
        if s == "" then "Límite de peticiones excedido"
        else "Límite de peticiones excedido. Reintentar después de " ++ s ++ "s"
    | none => "Límite de peticiones excedido"
  .apiError message service (some 429) true

/-! ## Domain entities: `Weather`, `City`, `Coordinates` -/

/-- `WeatherCondition` enum of `domain/entities/Weather.ts`. -/
inductive WeatherCondition where
  | clear | clouds | rain | drizzle | thunderstorm | snow | mist | fog | haze
deriving DecidableEq, Repr

/-- `TemperatureUnit` enum of `domain/entities/Weather.ts`. -/
inductive TemperatureUnit where
  | celsius | fahrenheit | kelvin
deriving DecidableEq, Repr

/-- The `Weather` entity: readonly fields, hence an immutable structure. -/
structure Weather where
  temperature : ℚ
  feelsLike : ℚ
  minTemperature : ℚ
  maxTemperature : ℚ
  pressure : ℚ
  humidity : ℚ
  visibility : ℚ
  windSpeed : ℚ
  windDirection : ℚ
  condition : WeatherCondition
  description : String
  timestamp : ℤ
deriving DecidableEq, Repr

/-- `Weather.validateTemperature` (`isNaN` is vacuous on ℚ). -/
def validateTemperature (temperature : ℚ) : Except JsThrow Unit :=
  if temperature < absoluteZeroCelsius then .error (.plainError "Valor de temperatura inválido")
  else .ok ()

/-- `Weather.validateHumidity` (`isNaN` is vacuous on ℚ). -/
def validateHumidity (humidity : ℚ) : Except JsThrow Unit :=
  if humidity < 0 ∨ humidity > 100 then
    .error (.plainError "La humedad debe estar entre 0 y 100")
  else .ok ()

/-- `Weather.validatePressure` (`isNaN` is vacuous on ℚ).  Note the source
rejects only `pressure < 0`, not `pressure = 0`. -/
def validatePressure (pressure : ℚ) : Except JsThrow Unit :=
  if pressure < 0 then .error (.plainError "Valor de presión inválido")
  else .ok ()

/-- The `Weather` constructor: validates temperature, humidity and pressure
in that order, then stores all fields unchanged. -/
def mkWeather (temperature feelsLike minTemperature maxTemperature pressure humidity
    visibility windSpeed windDirection : ℚ) (condition : WeatherCondition)
    (description : String) (timestamp : ℤ) : Except JsThrow Weather :=
  match validateTemperature temperature with
  | .error e => .error e
  | .ok _ =>
    match validateHumidity humidity with
    | .error e => .error e
    | .ok _ =>
      match validatePressure pressure with
      | .error e => .error e
      | .ok _ =>
        .ok {
          temperature := temperature
          feelsLike := feelsLike
          minTemperature := minTemperature
          maxTemperature := maxTemperature
          pressure := pressure
          humidity := humidity
          visibility := visibility
          windSpeed := windSpeed
          windDirection := windDirection
          condition := condition
          description := description
          timestamp := timestamp }

/-- `Weather.convertKelvinToCelsius`. -/
def convertKelvinToCelsius (kelvin : ℚ) : ℚ := kelvin - kelvinOffset

/-- `Weather.convertKelvinToFahrenheit`. -/
def convertKelvinToFahrenheit (kelvin : ℚ) : ℚ := (kelvin - kelvinOffset) * 9 / 5 + 32

/-- `Weather.getTemperatureInUnit`. -/
def getTemperatureInUnit (w : Weather) (unit : TemperatureUnit) : ℚ :=
  match unit with
  | .celsius => convertKelvinToCelsius w.temperature
  | .fahrenheit => convertKelvinToFahrenheit w.temperature
  | .kelvin => w.temperature

/-- The `City` entity (`domain/entities/City.ts`, bundled after
`SearchHistory.ts` in the sources). -/
structure City where
  name : String
  country : String
  latitude : Option ℚ := none
  longitude : Option ℚ := none
deriving DecidableEq, Repr

/-- One character of the `[a-zA-Z\s\-']` class used by the city-name and
country regexes (JS `\s` is modelled by `Char.isWhitespace`). -/
def cityCharOk (c : Char) : Bool :=
  (c ≥ 'a' && c ≤ 'z') || (c ≥ 'A' && c ≤ 'Z') || c.isWhitespace || c == '-' || c == apos

/-- `/^[a-zA-Z\s\-']+$/.test s`: non-empty and every character in the
class. -/
def cityRegexTest (s : String) : Bool :=
  !(s == "") && s.toList.all cityCharOk

/-- `City.validateName`. -/
def validateCityName (name : String) : Except JsThrow Unit :=
  if name == "" || (jsTrim name).length == 0 then
    .error (.plainError "El nombre de la ciudad no puede estar vacío")
  else if name.length < 2 then
    .error (.plainError "El nombre de la ciudad debe tener al menos 2 caracteres")
  else if !cityRegexTest name then
    .error (.plainError "El nombre de la ciudad contiene caracteres inválidos")
  else .ok ()

/-- `City.validateCountry`. -/
def validateCityCountry (country : String) : Except JsThrow Unit :=
  if country == "" || (jsTrim country).length == 0 then
    .error (.plainError "El país no puede estar vacío")
  else if country.length ≠ 2 ∧ country.length ≠ 3 then
    if !cityRegexTest country then
      .error (.plainError "El país contiene caracteres inválidos")
    else .ok ()
  else .ok ()

/-- The `City` constructor. -/
def mkCity (name country : String) (latitude longitude : Option ℚ) :
    Except JsThrow City :=
  match validateCityName name with
  | .error e => .error e
  | .ok _ =>
    match validateCityCountry country with
    | .error e => .error e
    | .ok _ =>
      .ok { name := name, country := country, latitude := latitude, longitude := longitude }

/-- `City.toString()`. -/
def cityToString (c : City) : String := c.name ++ ", " ++ c.country

/-- The `Coordinates` value object: stores already-validated numbers. -/
structure Coordinates where
  latitude : ℚ
  longitude : ℚ
deriving DecidableEq, Repr

/-- `Coordinates.validateLatitude`: rejects `NaN` and out-of-range values.
Note: it throws plain `Error`s, not the `ValidationError` domain class. -/
def validateLatitude (latitude : JsNum) : Except JsThrow Unit :=
  if latitude.nan then .error (.plainError "La latitud debe ser un número")
  else if latitude.val < -90 ∨ latitude.val > 90 then
    .error (.plainError "La latitud debe estar entre -90 y 90 grados")
  else .ok ()

/-- `Coordinates.validateLongitude`. -/
def validateLongitude (longitude : JsNum) : Except JsThrow Unit :=
  if longitude.nan then .error (.plainError "La longitud debe ser un número")
  else if longitude.val < -180 ∨ longitude.val > 180 then
    .error (.plainError "La longitud debe estar entre -180 y 180 grados")
  else .ok ()

/-- The `Coordinates` constructor. -/
def mkCoordinates (latitude longitude : JsNum) : Except JsThrow Coordinates :=
  match validateLatitude latitude with
  | .error e => .error e
  | .ok _ =>
    match validateLongitude longitude with
    | .error e => .error e
    | .ok _ => .ok { latitude := latitude.val, longitude := longitude.val }

/-- Does a fallible computation fail specifically with the
`ValidationError` domain class? -/
def failsWithValidationError {α : Type} (r : Except JsThrow α) : Bool :=
  match r with
  | .error (.validationError _) => true
  | _ => false

/-- `Math.atan2` (the standard piecewise definition used by JavaScript). -/
noncomputable def jsAtan2 (y x : ℝ) : ℝ :=
  if 0 < x then Real.arctan (y / x)
  else if x < 0 ∧ 0 ≤ y then Real.arctan (y / x) + Real.pi
  else if x < 0 ∧ y < 0 then Real.arctan (y / x) - Real.pi
  else if x = 0 ∧ 0 < y then Real.pi / 2
  else if x = 0 ∧ y < 0 then -(Real.pi / 2)
  else 0

/-- `Coordinates.toRadians`. -/
noncomputable def toRadians (degrees : ℝ) : ℝ := degrees * (Real.pi / 180)

/-- `Coordinates.distanceTo`: haversine distance, Earth radius 6371 km.
Real-valued (the source computes with floating point). -/
noncomputable def distanceTo (c other : Coordinates) : ℝ :=
  let R : ℝ := 6371
  let dLat := toRadians ((other.latitude : ℝ) - (c.latitude : ℝ))
  let dLon := toRadians ((other.longitude : ℝ) - (c.longitude : ℝ))
  let a := Real.sin (dLat / 2) * Real.sin (dLat / 2) +
    Real.cos (toRadians (c.latitude : ℝ)) * Real.cos (toRadians (other.latitude : ℝ)) *
    (Real.sin (dLon / 2) * Real.sin (dLon / 2))
  let c2 := 2 * jsAtan2 (Real.sqrt a) (Real.sqrt (1 - a))
  R * c2

/-! ## The canonical wire shape (`infrastructure/api/WeatherAPIResponse.ts`)

The zod-parsed type `Type` of `OpenWeatherResponseSchema`, with optional
fields as `Option`. -/

/-- One element of the `weather` array of the wire response. -/
structure WeatherDesc where
  id : ℚ
  main : String
  description : String
  icon : String
deriving DecidableEq, Repr

/-- The `main` metrics block of the wire response. -/
structure MainBlock where
  temp : ℚ
  feels_like : ℚ
  temp_min : ℚ
  temp_max : ℚ
  pressure : ℚ
  humidity : ℚ
deriving DecidableEq, Repr

/-- The zod-validated OpenWeatherMap-shaped response (`Type`). -/
structure ApiResp where
  coordLat : ℚ
  coordLon : ℚ
  weather : List WeatherDesc
  base : Option String := none
  main : MainBlock
  visibility : Option ℚ := none
  windSpeed : ℚ
  windDeg : Option ℚ := none
  windGust : Option ℚ := none
  cloudsAll : Option ℚ := none
  dt : ℤ
  sysCountry : Option String := none
  sysSunrise : Option ℤ := none
  sysSunset : Option ℤ := none
  timezone : Option ℤ := none
  respId : Option ℚ := none
  name : String
  cod : ℚ
deriving DecidableEq, Repr

/-! ## Repository mapping and error classification
(`WeatherRepositoryImpl`, src/unnamed/part_000) -/

/-- The `API_CONDITION_TO_DOMAIN` record: object-key lookup.  (The source
reads `API_CONDITION_TO_DOMAIN[main] || CLEAR`; every enum value is a
non-empty, hence truthy, string, so `||` behaves as `Option.getD`.) -/
def API_CONDITION_TO_DOMAIN (s : String) : Option WeatherCondition :=
  if s = "Clear" then some .clear
  else if s = "Clouds" then some .clouds
  else if s = "Rain" then some .rain
  else if s = "Drizzle" then some .drizzle
  else if s = "Thunderstorm" then some .thunderstorm
  else if s = "Snow" then some .snow
  else if s = "Mist" then some .mist
  else if s = "Fog" then some .fog
  else if s = "Haze" then some .haze
  else none

/-- `WeatherRepositoryImpl.mapAPIToWeather`: any failure inside the `try`
(empty `weather` array, or a `Weather` constructor throw) is caught and
rethrown as the fixed mapping error.  `now` is the clock reading used for
the entity's default timestamp. -/
def mapAPIToWeather (now : ℤ) (r : ApiResp) : Except JsThrow Weather :=
  let inner : Except JsThrow Weather :=
    match r.weather with
    | [] => .error (.plainError "Respuesta de API sin información de clima")
    | primaryWeather :: _ =>
      let condition := (API_CONDITION_TO_DOMAIN primaryWeather.main).getD .clear
      mkWeather r.main.temp r.main.feels_like r.main.temp_min r.main.temp_max
        r.main.pressure r.main.humidity (jsOrOptQ r.visibility 10000)
        (jsOrQ r.windSpeed 0) (jsOrOptQ r.windDeg 0) condition
        primaryWeather.description now
  match inner with
  | .ok w => .ok w
  | .error _ => .error (.plainError "Formato de respuesta de API inválido")

/-- `WeatherRepositoryImpl.mapAPIToCity`: a `City` constructor throw is
caught and rethrown with the original message appended.  (`name`, `lat`,
`lon` are non-optional in the parsed wire type, so their `??` defaults
never fire; `sys.country ?? 'unknown'` is `Option.getD`.) -/
def mapAPIToCity (r : ApiResp) : Except JsThrow City :=
  let name := r.name
  let country := r.sysCountry.getD "unknown"
  match mkCity name country (some r.coordLat) (some r.coordLon) with
  | .ok c => .ok c
  | .error e =>
      .error (.plainError ("Formato de respuesta de API inválido: " ++ e.message))

/-- `WeatherRepositoryImpl.isOperationalError`. -/
def isOperationalError (message : String) : Bool :=
  let lowerMessage := jsToLower message
  [ "timeout", "rate limit", "too many requests", "network", "connection",
    "service unavailable" ].any (fun pattern => jsIncludes lowerMessage pattern)

/-- `WeatherRepositoryImpl.handleAPIError` on an `Error` input (everything
the embedded pipelines throw is an `Error`, so the non-`Error` fallback
branch of the source is unreachable here). -/
def handleAPIError (error : JsThrow) (context : String) : JsThrow :=
  let msg := error.message
  if jsIncludes msg "404" || jsIncludes msg "not found" then
    .notFoundError "Ciudad" context
  else if jsIncludes msg "401" || jsIncludes msg "Invalid API key" then
    .configurationError "OpenWeatherMap" (some "API_KEY")
  else if jsIncludes msg "429" || jsIncludes msg "rate limit" then
    apiErrorRateLimit "OpenWeatherMap" none
  else if jsIncludes (jsToLower msg) "timeout" then
    apiErrorTimeout "OpenWeatherMap" 5000
  else
    .apiError ("Error al consultar el clima: " ++ msg) "OpenWeatherMap" none
      (isOperationalError msg)

/-! ## Static city table (`infrastructure/data/CitiesByCountry.ts`) -/

/-- `CITIES_BY_COUNTRY`: the top cities per ISO-2 country code, in the
source's key order. -/
def CITIES_BY_COUNTRY : List (String × List String) :=
  [ ("ES", ["Madrid", "Barcelona", "Valencia", "Sevilla", "Bilbao"]),
    ("FR", ["Paris", "Marseille", "Lyon", "Toulouse", "Nice"]),
    ("DE", ["Berlin", "Hamburg", "Munich", "Cologne", "Frankfurt"]),
    ("IT", ["Rome", "Milan", "Naples", "Turin", "Palermo"]),
    ("GB", ["London", "Birmingham", "Manchester", "Glasgow", "Liverpool"]),
    ("PT", ["Lisbon", "Porto", "Braga", "Coimbra", "Faro"]),
    ("NL", ["Amsterdam", "Rotterdam", "The Hague", "Utrecht", "Eindhoven"]),
    ("BE", ["Brussels", "Antwerp", "Ghent", "Bruges", "Liege"]),
    ("PL", ["Warsaw", "Krakow", "Lodz", "Wroclaw", "Poznan"]),
    ("CZ", ["Prague", "Brno", "Ostrava", "Plzen", "Liberec"]),
    ("AT", ["Vienna", "Graz", "Linz", "Salzburg", "Innsbruck"]),
    ("CH", ["Zurich", "Geneva", "Basel", "Bern", "Lausanne"]),
    ("SE", ["Stockholm", "Gothenburg", "Malmo", "Uppsala", "Vasteras"]),
    ("NO", ["Oslo", "Bergen", "Trondheim", "Stavanger", "Drammen"]),
    ("DK", ["Copenhagen", "Aarhus", "Odense", "Aalborg", "Esbjerg"]),
    ("FI", ["Helsinki", "Espoo", "Tampere", "Vantaa", "Oulu"]),
    ("IE", ["Dublin", "Cork", "Limerick", "Galway", "Waterford"]),
    ("GR", ["Athens", "Thessaloniki", "Patras", "Heraklion", "Larissa"]),
    ("RU", ["Moscow", "Saint Petersburg", "Novosibirsk", "Yekaterinburg", "Kazan"]),
    ("UA", ["Kyiv", "Kharkiv", "Odessa", "Dnipro", "Lviv"]),
    ("TR", ["Istanbul", "Ankara", "Izmir", "Bursa", "Antalya"]),
    ("RO", ["Bucharest", "Cluj-Napoca", "Timisoara", "Iasi", "Constanta"]),
    ("HU", ["Budapest", "Debrecen", "Szeged", "Miskolc", "Pecs"]),
    ("SK", ["Bratislava", "Kosice", "Presov", "Zilina", "Nitra"]),
    ("HR", ["Zagreb", "Split", "Rijeka", "Osijek", "Zadar"]),
    ("RS", ["Belgrade", "Novi Sad", "Nis", "Kragujevac", "Subotica"]),
    ("BG", ["Sofia", "Plovdiv", "Varna", "Burgas", "Ruse"]),
    ("US", ["New York", "Los Angeles", "Chicago", "Houston", "Miami"]),
    ("CA", ["Toronto", "Montreal", "Vancouver", "Calgary", "Ottawa"]),
    ("MX", ["Mexico City", "Guadalajara", "Monterrey", "Puebla", "Tijuana"]),
    ("BR", ["Sao Paulo", "Rio de Janeiro", "Brasilia", "Salvador", "Fortaleza"]),
    ("AR", ["Buenos Aires", "Cordoba", "Rosario", "Mendoza", "La Plata"]),
    ("CO", ["Bogota", "Medellin", "Cali", "Barranquilla", "Cartagena"]),
    ("PE", ["Lima", "Arequipa", "Trujillo", "Chiclayo", "Cusco"]),
    ("CL", ["Santiago", "Valparaiso", "Concepcion", "La Serena", "Antofagasta"]),
    ("VE", ["Caracas", "Maracaibo", "Valencia", "Barquisimeto", "Maracay"]),
    ("EC", ["Quito", "Guayaquil", "Cuenca", "Santo Domingo", "Machala"]),
    ("UY", ["Montevideo", "Salto", "Paysandu", "Las Piedras", "Rivera"]),
    ("PY", ["Asuncion", "Ciudad del Este", "San Lorenzo", "Luque", "Capiata"]),
    ("BO", ["La Paz", "Santa Cruz", "Cochabamba", "Sucre", "Oruro"]),
    ("CR", ["San Jose", "Limon", "Alajuela", "Heredia", "Cartago"]),
    ("PA", ["Panama City", "San Miguelito", "Tocumen", "David", "Arraijan"]),
    ("CU", ["Havana", "Santiago de Cuba", "Camaguey", "Holguin", "Santa Clara"]),
    ("DO", ["Santo Domingo", "Santiago", "San Pedro de Macoris", "La Romana", "San Cristobal"]),
    ("PR", ["San Juan", "Bayamon", "Carolina", "Ponce", "Caguas"]),
    ("GT", ["Guatemala City", "Mixco", "Villa Nueva", "Quetzaltenango", "Escuintla"]),
    ("HN", ["Tegucigalpa", "San Pedro Sula", "Choloma", "La Ceiba", "El Progreso"]),
    ("SV", ["San Salvador", "Santa Ana", "San Miguel", "Mejicanos", "Soyapango"]),
    ("NI", ["Managua", "Leon", "Masaya", "Matagalpa", "Chinandega"]),
    ("JM", ["Kingston", "Montego Bay", "Spanish Town", "Portmore", "Mandeville"]),
    ("TT", ["Port of Spain", "San Fernando", "Chaguanas", "Arima", "Point Fortin"]),
    ("JP", ["Tokyo", "Osaka", "Yokohama", "Nagoya", "Sapporo"]),
    ("CN", ["Beijing", "Shanghai", "Guangzhou", "Shenzhen", "Chengdu"]),
    ("IN", ["Mumbai", "Delhi", "Bangalore", "Hyderabad", "Chennai"]),
    ("KR", ["Seoul", "Busan", "Incheon", "Daegu", "Daejeon"]),
    ("TH", ["Bangkok", "Chiang Mai", "Pattaya", "Phuket", "Nonthaburi"]),
    ("VN", ["Hanoi", "Ho Chi Minh City", "Da Nang", "Hai Phong", "Can Tho"]),
    ("PH", ["Manila", "Quezon City", "Davao", "Cebu City", "Zamboanga"]),
    ("ID", ["Jakarta", "Surabaya", "Bandung", "Medan", "Semarang"]),
    ("MY", ["Kuala Lumpur", "George Town", "Johor Bahru", "Ipoh", "Shah Alam"]),
    ("SG", ["Singapore"]),
    ("TW", ["Taipei", "Kaohsiung", "Taichung", "Tainan", "Hsinchu"]),
    ("HK", ["Hong Kong", "Kowloon", "Tsuen Wan", "Sha Tin", "Tuen Mun"]),
    ("PK", ["Karachi", "Lahore", "Islamabad", "Faisalabad", "Rawalpindi"]),
    ("BD", ["Dhaka", "Chittagong", "Khulna", "Rajshahi", "Sylhet"]),
    ("LK", ["Colombo", "Kandy", "Galle", "Jaffna", "Negombo"]),
    ("NP", ["Kathmandu", "Pokhara", "Lalitpur", "Bharatpur", "Biratnagar"]),
    ("AE", ["Dubai", "Abu Dhabi", "Sharjah", "Ajman", "Ras Al Khaimah"]),
    ("SA", ["Riyadh", "Jeddah", "Mecca", "Medina", "Dammam"]),
    ("IL", ["Tel Aviv", "Jerusalem", "Haifa", "Rishon LeZion", "Petah Tikva"]),
    ("IR", ["Tehran", "Mashhad", "Isfahan", "Karaj", "Shiraz"]),
    ("AU", ["Sydney", "Melbourne", "Brisbane", "Perth", "Adelaide"]),
    ("NZ", ["Auckland", "Wellington", "Christchurch", "Hamilton", "Tauranga"]),
    ("FJ", ["Suva", "Nadi", "Lautoka", "Labasa", "Ba"]),
    ("ZA", ["Johannesburg", "Cape Town", "Durban", "Pretoria", "Port Elizabeth"]),
    ("EG", ["Cairo", "Alexandria", "Giza", "Shubra El Kheima", "Port Said"]),
    ("NG", ["Lagos", "Kano", "Ibadan", "Abuja", "Port Harcourt"]),
    ("KE", ["Nairobi", "Mombasa", "Kisumu", "Nakuru", "Eldoret"]),
    ("MA", ["Casablanca", "Rabat", "Fes", "Marrakech", "Tangier"]),
    ("GH", ["Accra", "Kumasi", "Tamale", "Takoradi", "Tema"]),
    ("TZ", ["Dar es Salaam", "Mwanza", "Arusha", "Dodoma", "Mbeya"]),
    ("ET", ["Addis Ababa", "Dire Dawa", "Mekelle", "Gondar", "Hawassa"]),
    ("DZ", ["Algiers", "Oran", "Constantine", "Annaba", "Blida"]),
    ("TN", ["Tunis", "Sfax", "Sousse", "Kairouan", "Bizerte"]) ]

/-- `getCitiesForCountry`: record lookup after upper-casing the code
(`CITIES_BY_COUNTRY[countryCode.toUpperCase()]`). -/
def getCitiesForCountry (countryCode : String) : Option (List String) :=
  CITIES_BY_COUNTRY.lookup (jsToUpper countryCode)

/-! ## Repository orchestration (`WeatherRepositoryImpl`) -/

/-- `WeatherResult`: the unit cached and returned by the repository. -/
structure WeatherResult where
  weather : Weather
  city : City
  requestedAt : ℤ
deriving DecidableEq, Repr

/-- `UNIT_TO_API_PARAM`. -/
def UNIT_TO_API_PARAM : TemperatureUnit → String
  | .celsius => "metric"
  | .fahrenheit => "imperial"
  | .kelvin => "standard"

/-- The string value of a `TemperatureUnit` enum member (its template-literal
rendering). -/
def TemperatureUnit.toValue : TemperatureUnit → String
  | .celsius => "celsius"
  | .fahrenheit => "fahrenheit"
  | .kelvin => "kelvin"

/-- Template-literal rendering of `params.units`, which may be `undefined`. -/
def unitsTemplate : Option TemperatureUnit → String
  | none => "undefined"
  | some u => u.toValue

/-- `WeatherQueryParams`. -/
structure WeatherQueryParams where
  city : City
  units : Option TemperatureUnit := none
deriving DecidableEq, Repr

/-- One call made on the injected `WeatherAPIClient`; repository functions
return the list of calls they issued, in order. -/
inductive ClientCall where
  | byName (cityName : String) (countryCode : Option String) (units : Option String)
  | byCoordinates (lat lon : ℚ) (units : Option String)
  | citiesByCountry (countryCode : String) (limit : ℤ)
deriving DecidableEq, Repr

/-- The injected `WeatherAPIClient` as an oracle: what each endpoint
returns (or throws) for given arguments. -/
structure WeatherAPIClientModel where
  byName : String → Option String → Option String → Except JsThrow ApiResp
  byCoordinates : ℚ → ℚ → Option String → Except JsThrow ApiResp
  citiesByCountry : String → ℤ → Except JsThrow (List ApiResp)

/-- `WeatherRepositoryImpl.normalizeCityNameForApi`.  The JavaScript
built-ins `normalize("NFD")` + strip `\p{Diacritic}` are modelled for the
precomposed Latin letters by `stripDiacritic`; `replace(/\s+/g, " ")` +
`trim()` amount to splitting on whitespace, dropping empty fragments and
re-joining with single spaces. -/
def stripDiacritic (c : Char) : Char :=
  if c ∈ ['á', 'à', 'â', 'ä', 'ã', 'å'] then 'a'
  else if c ∈ ['é', 'è', 'ê', 'ë'] then 'e'
  else if c ∈ ['í', 'ì', 'î', 'ï'] then 'i'
  else if c ∈ ['ó', 'ò', 'ô', 'ö', 'õ'] then 'o'
  else if c ∈ ['ú', 'ù', 'û', 'ü'] then 'u'
  else if c ∈ ['ý', 'ÿ'] then 'y'
  else if c = 'ñ' then 'n'
  else if c = 'ç' then 'c'
  else if c ∈ ['Á', 'À', 'Â', 'Ä', 'Ã', 'Å'] then 'A'
  else if c ∈ ['É', 'È', 'Ê', 'Ë'] then 'E'
  else if c ∈ ['Í', 'Ì', 'Î', 'Ï'] then 'I'
  else if c ∈ ['Ó', 'Ò', 'Ô', 'Ö', 'Õ'] then 'O'
  else if c ∈ ['Ú', 'Ù', 'Û', 'Ü'] then 'U'
  else if c = 'Ñ' then 'N'
  else if c = 'Ç' then 'C'
  else c

/-- Split a character list into maximal whitespace-free tokens (the
accumulator holds the current token, reversed). -/
def wsTokens : List Char → List Char → List String
  | [], acc => if acc.isEmpty then [] else [String.mk acc.reverse]
  | c :: rest, acc =>
    if c.isWhitespace then
      if acc.isEmpty then wsTokens rest []
      else String.mk acc.reverse :: wsTokens rest []
    else wsTokens rest (c :: acc)

/-- Join tokens with single spaces (`Array.prototype.join(" ")`). -/
def joinWithSpace : List String → String
  | [] => ""
  | [w] => w
  | w :: rest => w ++ " " ++ joinWithSpace rest

/-- `normalizeCityNameForApi` (see `stripDiacritic`). -/
def normalizeCityNameForApi (name : String) : String :=
  let stripped := String.mk (name.toList.map stripDiacritic)
  joinWithSpace (wsTokens stripped.toList [])

/-- One iteration body of `tryGetWeatherForCityInCountry`: call the client
and map the response; any throw makes the whole attempt fail. -/
def attemptCityVariant (client : WeatherAPIClientModel) (now : ℤ) (name : String)
    (country : Option String) (unitsParam : Option String) :
    Except JsThrow WeatherResult :=
  match client.byName name country unitsParam with
  | .error e => .error e
  | .ok apiResponse =>
    match mapAPIToWeather now apiResponse with
    | .error e => .error e
    | .ok weather =>
      match mapAPIToCity apiResponse with
      | .error e => .error e
      | .ok city => .ok { weather := weather, city := city, requestedAt := now }

/-- Walk a list of (name, country) combinations in order, returning the
first successful attempt (failures are logged and skipped), together with
the client calls issued. -/
def tryVariantList (client : WeatherAPIClientModel) (now : ℤ)
    (unitsParam : Option String) :
    List (String × Option String) → Option WeatherResult × List ClientCall
  | [] => (none, [])
  | (name, country) :: rest =>
    match attemptCityVariant client now name country unitsParam with
    | .ok r => (some r, [.byName name country unitsParam])
    | .error _ =>
      let (res, tr) := tryVariantList client now unitsParam rest
      (res, .byName name country unitsParam :: tr)

/-- The iteration order of the two nested `for` loops of
`tryGetWeatherForCityInCountry`: `nameVariants = [cityName, normalized]`
outside, `countryVariants = [countryCode, undefined]` inside. -/
def cityVariantCombos (cityName countryCode : String) : List (String × Option String) :=
  [ (cityName, some countryCode),
    (cityName, none),
    (normalizeCityNameForApi cityName, some countryCode),
    (normalizeCityNameForApi cityName, none) ]

/-- `WeatherRepositoryImpl.tryGetWeatherForCityInCountry`. -/
def tryGetWeatherForCityInCountry (client : WeatherAPIClientModel) (now : ℤ)
    (cityName countryCode : String) (unitsParam : Option String) :
    Option WeatherResult × List ClientCall :=
  tryVariantList client now unitsParam (cityVariantCombos cityName countryCode)

/-- `WeatherRepositoryImpl.getWeatherForCities`: sequential per-city
lookups; a city whose every variant failed is skipped. -/
def getWeatherForCities (client : WeatherAPIClientModel) (now : ℤ) :
    List String → String → List WeatherResult × List ClientCall
  | [], _ => ([], [])
  | cityName :: rest, countryCode =>
    let (res, tr) := tryGetWeatherForCityInCountry client now cityName countryCode none
    let (results, trs) := getWeatherForCities client now rest countryCode
    (match res with
     | some r => r :: results
     | none => results, tr ++ trs)

/-- Map one dynamic-search response to a `WeatherResult`
(`apiResults.map(...)` body of `getByCountry`). -/
def mapDynamicResult (now : ℤ) (r : ApiResp) : Except JsThrow WeatherResult :=
  match mapAPIToWeather now r with
  | .error e => .error e
  | .ok weather =>
    match mapAPIToCity r with
    | .error e => .error e
    | .ok city => .ok { weather := weather, city := city, requestedAt := now }

/-- `maxCities` of `getByCountry`: `limit && limit > 0 ? limit : 5` (a
`limit` of `0` is falsy, so both reads give 5). -/
def maxCitiesFor (limit : Option ℤ) : ℤ :=
  match limit with
  | some l => if l > 0 then l else 5
  | none => 5

/-- The dynamic-search tail of `getByCountry`: a thrown error anywhere in
the `try` (the client call or a mapping) is caught, and the function falls
through to the empty list. -/
def getByCountryDynamic (client : WeatherAPIClientModel) (now : ℤ)
    (upperCountry : String) (maxCities : ℤ) :
    List WeatherResult × List ClientCall :=
  let trace : List ClientCall := [.citiesByCountry upperCountry maxCities]
  match client.citiesByCountry upperCountry maxCities with
  | .error _ => ([], trace)
  | .ok apiResults =>
    if apiResults.isEmpty then ([], trace)
    else
      match apiResults.mapM (mapDynamicResult now) with
      | .ok rs => (rs, trace)
      | .error _ => ([], trace)

/-- `WeatherRepositoryImpl.getByCountry`.  `persisted` models the optional
`CountryCitiesRepository`: `none` when the collaborator is not registered,
`some (.error e)` when its lookup throws (caught and logged), `some (.ok cs)`
when it returns `cs`. -/
def getByCountry (client : WeatherAPIClientModel)
    (persisted : Option (Except JsThrow (List String))) (now : ℤ)
    (countryCode : String) (limit : Option ℤ) :
    List WeatherResult × List ClientCall :=
  let upperCountry := jsToUpper countryCode
  let maxCities : ℤ := maxCitiesFor limit
  let cities0 : Option (List String) :=
    match persisted with
    | none => none
    | some (.error _) => none
    | some (.ok cs) => some cs
  let cities1 : Option (List String) :=
    match cities0 with
    | some cs => if cs.isEmpty then getCitiesForCountry upperCountry else some cs
    | none => getCitiesForCountry upperCountry
  match cities1 with
  | some cs =>
    if !cs.isEmpty then
      getWeatherForCities client now (cs.take maxCities.toNat) upperCountry
    else
      getByCountryDynamic client now upperCountry maxCities
  | none => getByCountryDynamic client now upperCountry maxCities

/-! ## Cache (`infrastructure/cache/MemoryCacheAdapter.ts`)

A JS `Map` preserves insertion order; `set` of an existing key updates the
entry in place.  Keys are unique by construction of the operations, so an
association list with in-place update is a faithful model. -/

/-- One cache entry. -/
structure CacheEntry where
  value : WeatherResult
  expiresAt : ℤ
  lastAccessed : ℤ
deriving DecidableEq, Repr

/-- The adapter's private `Map` plus its constants. -/
structure MemoryCache where
  entries : List (String × CacheEntry)
deriving DecidableEq, Repr

/-- `defaultTtlSeconds = 600`. -/
def defaultTtlSeconds : ℤ := 600

/-- `maxEntries = 100`. -/
def maxEntries : ℕ := 100

/-- `Map.prototype.set`: update in place when the key exists, else append. -/
def mapSetEntry : List (String × CacheEntry) → String → CacheEntry →
    List (String × CacheEntry)
  | [], k, e => [(k, e)]
  | (k0, e0) :: rest, k, e =>
      if k0 = k then (k0, e) :: rest else (k0, e0) :: mapSetEntry rest k e

/-- `Map.prototype.delete`. -/
def mapDeleteKey (entries : List (String × CacheEntry)) (key : String) :
    List (String × CacheEntry) :=
  entries.filter (fun p => p.1 ≠ key)

/-- `MemoryCacheAdapter.get` at clock reading `now`: a miss if the key is
absent or expired (an expired entry is purged by this read); a hit
refreshes `lastAccessed`. -/
def cacheGet (now : ℤ) (key : String) (c : MemoryCache) :
    Option WeatherResult × MemoryCache :=
  match c.entries.lookup key with
  | none => (none, c)
  | some entry =>
    if now > entry.expiresAt then (none, ⟨mapDeleteKey c.entries key⟩)
    else (some entry.value,
      ⟨mapSetEntry c.entries key { entry with lastAccessed := now }⟩)

/-- The single-pass scan of `evictOldest`, phase two: the key with the
strictly smallest `lastAccessed` (first wins on ties, matching the strict
`<` against an accumulator started at `Infinity`). -/
def selectOldest : List (String × CacheEntry) → Option (String × ℤ) → Option String
  | [], acc => acc.map (fun p => p.1)
  | (k, e) :: rest, acc =>
    match acc with
    | none => selectOldest rest (some (k, e.lastAccessed))
    | some (k0, a0) =>
      if e.lastAccessed < a0 then selectOldest rest (some (k, e.lastAccessed))
      else selectOldest rest (some (k0, a0))

/-- `MemoryCacheAdapter.evictOldest`: the scan deletes the first
already-expired entry and returns immediately; only if none is expired does
the full least-recently-accessed choice apply. -/
def evictOldest (now : ℤ) (c : MemoryCache) : MemoryCache :=
  match c.entries.find? (fun p => now > p.2.expiresAt) with
  | some p => ⟨mapDeleteKey c.entries p.1⟩
  | none =>
    match selectOldest c.entries none with
    | some k => ⟨mapDeleteKey c.entries k⟩
    | none => c

/-- `MemoryCacheAdapter.set`: evict if at capacity, then insert with the
TTL (default 600 s) stamped at insertion. -/
def cacheSet (now : ℤ) (key : String) (value : WeatherResult)
    (ttlSeconds : Option ℤ) (c : MemoryCache) : MemoryCache :=
  let c1 := if c.entries.length ≥ maxEntries then evictOldest now c else c
  let ttl := ttlSeconds.getD defaultTtlSeconds
  ⟨mapSetEntry c1.entries key
    { value := value, expiresAt := now + ttl * 1000, lastAccessed := now }⟩

/-! ## `getByCity` and `getByCoordinates` (`WeatherRepositoryImpl`) -/

/-- The cache key `weather:city:<name>:<country>:<units>` built by
`getByCity` (template literal; `undefined` units render as "undefined"). -/
def cityCacheKey (params : WeatherQueryParams) : String :=
  "weather:city:" ++ params.city.name ++ ":" ++ params.city.country ++ ":" ++
    unitsTemplate params.units

/-- `WeatherRepositoryImpl.getByCity`: cache read (its failure path is
vacuous in the pure model), provider call on a miss, mapping, best-effort
cache write, error classification via `handleAPIError`.  Returns the
result, the new cache state and the client calls issued. -/
def getByCity (client : WeatherAPIClientModel) (cache : MemoryCache) (now : ℤ)
    (params : WeatherQueryParams) :
    Except JsThrow WeatherResult × MemoryCache × List ClientCall :=
  let cacheKey := cityCacheKey params
  match cacheGet now cacheKey cache with
  | (some cached, cache1) => (.ok cached, cache1, [])
  | (none, cache1) =>
    let unitsParam := params.units.map UNIT_TO_API_PARAM
    let call : ClientCall := .byName params.city.name (some params.city.country) unitsParam
    match client.byName params.city.name (some params.city.country) unitsParam with
    | .error e =>
        (.error (handleAPIError e (cityToString params.city)), cache1, [call])
    | .ok apiResponse =>
      match mapAPIToWeather now apiResponse with
      | .error e =>
          (.error (handleAPIError e (cityToString params.city)), cache1, [call])
      | .ok weather =>
        match mapAPIToCity apiResponse with
        | .error e =>
            (.error (handleAPIError e (cityToString params.city)), cache1, [call])
        | .ok city =>
          let result : WeatherResult := { weather := weather, city := city, requestedAt := now }
          (.ok result, cacheSet now cacheKey result none cache1, [call])

/-- `Coordinates.toString()` (the `toFixed(6)` decimal rendering is
abstracted to a plain rendering: no claim inspects this string, it only
feeds the error-context argument). -/
def coordinatesToString (c : Coordinates) : String :=
  toString c.latitude ++ ", " ++ toString c.longitude

/-- `WeatherRepositoryImpl.getByCoordinates`: no cache; provider call,
mapping, classification. -/
def getByCoordinates (client : WeatherAPIClientModel) (now : ℤ)
    (coordinates : Coordinates) (units : Option TemperatureUnit) :
    Except JsThrow WeatherResult :=
  let context := "coords(" ++ coordinatesToString coordinates ++ ")"
  match client.byCoordinates coordinates.latitude coordinates.longitude
      (units.map UNIT_TO_API_PARAM) with
  | .error e => .error (handleAPIError e context)
  | .ok apiResponse =>
    match mapAPIToWeather now apiResponse with
    | .error e => .error (handleAPIError e context)
    | .ok weather =>
      match mapAPIToCity apiResponse with
      | .error e => .error (handleAPIError e context)
      | .ok city => .ok { weather := weather, city := city, requestedAt := now }

/-! ## Keyless provider (`infrastructure/api/OpenMeteoClient.ts`) -/

/-- The `current` block of an Open-Meteo `/forecast` response (fields the
adapter reads; the `??` defaults in the adapter are `Option.getD`). -/
structure OpenMeteoCurrent where
  temperature_2m : ℚ
  relative_humidity_2m : Option ℚ := none
  apparent_temperature : Option ℚ := none
  pressure_msl : Option ℚ := none
  wind_speed_10m : Option ℚ := none
  wind_direction_10m : Option ℚ := none
deriving DecidableEq, Repr

/-- The adapted wire response built by
`OpenMeteoClient.getCurrentWeatherByCoordinates`: fixed "Clear" condition,
`visibility` 10000, and — decisively — `name: ""`. -/
def openMeteoAdaptByCoordinates (lat lon : ℚ) (current : OpenMeteoCurrent)
    (now : ℤ) : ApiResp :=
  { coordLat := lat
    coordLon := lon
    weather := [{ id := 0, main := "Clear",
                  description := "Clear sky (Open-Meteo)", icon := "01d" }]
    base := some "stations"
    main := { temp := current.temperature_2m
              feels_like := current.apparent_temperature.getD current.temperature_2m
              temp_min := current.temperature_2m
              temp_max := current.temperature_2m
              pressure := current.pressure_msl.getD 1013
              humidity := current.relative_humidity_2m.getD 50 }
    visibility := some 10000
    windSpeed := current.wind_speed_10m.getD 0
    windDeg := some (current.wind_direction_10m.getD 0)
    windGust := none
    cloudsAll := none
    dt := Int.fdiv now 1000
    sysCountry := none
    sysSunrise := none
    sysSunset := none
    timezone := some 0
    respId := some 0
    name := ""
    cod := 200 }

/-! ## Keyed provider retry machinery
(`infrastructure/api/OpenWeatherMapClient.ts`)

The per-attempt HTTP outcome is a `RawHttp`: the request either resolves
with payload data, is rejected with a response attached (an `AxiosError`
carrying the status and the `retry-after` header), or is rejected with no
response (network failure).  The response interceptor installed by
`setupInterceptors` transforms rejections *before* `executeWithRetry`
sees them.  The payload is abstracted to its classification outcome
(`WireData`): a zod-valid weather reading, an error envelope recognized by
`isAPIError`, or data failing `parseWeatherResponse`. -/

/-- `WeatherAPIConfig` of the keyed client. -/
structure WeatherAPIConfig where
  apiKey : String
  baseURL : String
  timeout : ℤ
  maxRetries : ℕ
  retryDelay : ℤ
deriving DecidableEq, Repr

/-- Classification of `response.data` by `isAPIError` /
`parseWeatherResponse`. -/
inductive WireData (β : Type) where
  | valid (resp : β)
  | envelope (cod message : String)
  | invalid (message : String)
deriving DecidableEq, Repr

/-- The raw result of one HTTP attempt, before the interceptor runs. -/
inductive RawHttp (β : Type) where
  | ok (data : WireData β)
  | httpError (status : ℤ) (retryAfter : Option String)
  | networkError
deriving DecidableEq, Repr

/-- What `executeWithRetry` can catch: an untransformed `AxiosError`
(with or without a response), or an ordinary thrown `Error`. -/
inductive ClientErr where
  | axiosHttp (status : ℤ) (retryAfter : Option String)
  | axiosNetwork
  | thrown (e : JsThrow)
deriving DecidableEq, Repr

/-- The response interceptor of `setupInterceptors`: 401/403/404/429
rejections are replaced by domain errors, a response-less rejection by
`ApiError.timeout`; any other status passes through unchanged. -/
def responseInterceptor {β : Type} (timeout : ℤ) :
    RawHttp β → Except ClientErr (WireData β)
  | .ok d => .ok d
  | .httpError status retryAfter =>
    if status = 401 then
      .error (.thrown (.configurationError "OpenWeatherMap" (some "API_KEY_INVALID")))
    else if status = 403 then
      .error (.thrown (.apiError "Acceso denegado" "OpenWeatherMap" (some 403) true))
    else if status = 404 then
      .error (.thrown (.apiError "Recurso no encontrado" "OpenWeatherMap" (some 404) true))
    else if status = 429 then
      .error (.thrown (apiErrorRateLimit "OpenWeatherMap" retryAfter))
    else
      .error (.axiosHttp status retryAfter)
  | .networkError => .error (.thrown (apiErrorTimeout "OpenWeatherMap" timeout))

/-- `OpenWeatherMapClient.isRateLimitError`: true only for an `AxiosError`
with an attached 429 response. -/
def isRateLimitError : ClientErr → Bool
  | .axiosHttp status _ => status == 429
  | _ => false

/-- `OpenWeatherMapClient.isRetryableError`. -/
def isRetryableError : ClientErr → Bool
  | .axiosHttp status _ => status ≥ 500 || status == 429 || status == 408
  | .axiosNetwork => true
  | .thrown e => jsIncludes (jsToLower e.message) "timeout"

/-- Leading decimal digits of a character list. -/
def leadingDigits : List Char → List Char
  | [] => []
  | c :: rest => if c.isDigit then c :: leadingDigits rest else []

/-- JavaScript `parseInt(s, 10)`: skip leading whitespace, optional sign,
then the leading digit run; `none` models `NaN`. -/
def parseIntJs (s : String) : Option ℤ :=
  let cs := s.toList.dropWhile Char.isWhitespace
  let signAndRest : ℤ × List Char :=
    match cs with
    | c :: rest => if c = '-' then (-1, rest) else if c = '+' then (1, rest) else (1, cs)
    | [] => (1, [])
  let ds := leadingDigits signAndRest.2
  if ds.isEmpty then none
  else some (signAndRest.1 *
    ((ds.foldl (fun acc c => acc * 10 + (c.toNat - 48)) 0 : ℕ) : ℤ))

/-- `OpenWeatherMapClient.getRetryAfter`: the `retry-after` header parsed
to milliseconds; `none` covers both "no header / empty header" (falsy) and
`NaN` seconds — both make the caller's `||` fall back. -/
def getRetryAfter : ClientErr → Option ℤ
  | .axiosHttp _ (some h) =>
      if h == "" then none else (parseIntJs h).map (fun s => s * 1000)
  | _ => none

/-- JavaScript `x || d` on the result of `getRetryAfter` (`null`, `0` and
`NaN` are falsy). -/
def jsOrOptInt (x : Option ℤ) (d : ℤ) : ℤ :=
  match x with
  | none => d
  | some v => if v = 0 then d else v

/-- The `for` loop of `executeWithRetry`, unrolled on the number of
iterations left (`left = maxRetries - attempt + 1`).  Returns the result,
the number of attempts actually issued, and the list of waits (ms)
performed between attempts, in order. -/
def executeWithRetryGo {β : Type} (cfg : WeatherAPIConfig)
    (requestFn : ℕ → Except ClientErr (WireData β)) :
    ℕ → ℕ → Except ClientErr β × ℕ × List ℤ
  | 0, _ =>
    (.error (.thrown (.applicationError
      ("Fallaron todos los intentos después de " ++ toString cfg.maxRetries ++ " veces")
      "MAX_RETRIES_EXCEEDED")), 0, [])
  | left + 1, attempt =>
    let outcome : Except ClientErr β :=
      match requestFn attempt with
      | .ok (.valid resp) => .ok resp
      | .ok (.envelope cod msg) =>
          .error (.thrown (.plainError ("API Error " ++ cod ++ ": " ++ msg)))
      | .ok (.invalid msg) =>
          .error (.thrown (.plainError ("Respuesta de API inválida: " ++ msg)))
      | .error e => .error e
    match outcome with
    | .ok resp => (.ok resp, 1, [])
    | .error e =>
      if isRateLimitError e then
        let retryAfter := jsOrOptInt (getRetryAfter e) (cfg.retryDelay * (attempt : ℤ))
        let next := executeWithRetryGo cfg requestFn left (attempt + 1)
        (next.1, next.2.1 + 1, retryAfter :: next.2.2)
      else if !isRetryableError e then (.error e, 1, [])
      else if attempt < cfg.maxRetries then
        let next := executeWithRetryGo cfg requestFn left (attempt + 1)
        (next.1, next.2.1 + 1, (cfg.retryDelay * (attempt : ℤ)) :: next.2.2)
      else
        let next := executeWithRetryGo cfg requestFn left (attempt + 1)
        (next.1, next.2.1 + 1, next.2.2)

/-- `OpenWeatherMapClient.executeWithRetry`: attempts run from 1 to
`maxRetries`; exhaustion throws the `MAX_RETRIES_EXCEEDED`
`ApplicationError`. -/
def executeWithRetry {β : Type} (cfg : WeatherAPIConfig)
    (requestFn : ℕ → Except ClientErr (WireData β)) :
    Except ClientErr β × ℕ × List ℤ :=
  executeWithRetryGo cfg requestFn cfg.maxRetries 1

/-- A `/weather` request as the repository drives it: the raw per-attempt
outcomes composed with the response interceptor, then the retry loop. -/
def weatherRequestWithRetry {β : Type} (cfg : WeatherAPIConfig)
    (raw : ℕ → RawHttp β) : Except ClientErr β × ℕ × List ℤ :=
  executeWithRetry cfg (fun attempt => responseInterceptor cfg.timeout (raw attempt))

/-! ## Auxiliary definitions used by the theorem statements -/

/-- Is a client call the dynamic provider-side country search? -/
def ClientCall.isDynamicSearch : ClientCall → Bool
  | .citiesByCountry _ _ => true
  | _ => false

/-- The first successful outcome of a list of attempts, in order. -/
def firstOkResult : List (Except JsThrow WeatherResult) → Option WeatherResult
  | [] => none
  | .ok r :: _ => some r
  | .error _ :: rest => firstOkResult rest

/-- The known condition-string ↦ enum pairs, as the specification words
them (used to state the mapping claim against the source's table). -/
def knownConditionPairs : List (String × WeatherCondition) :=
  [ ("Clear", .clear), ("Clouds", .clouds), ("Rain", .rain),
    ("Drizzle", .drizzle), ("Thunderstorm", .thunderstorm), ("Snow", .snow),
    ("Mist", .mist), ("Fog", .fog), ("Haze", .haze) ]


/-! ## Helper lemmas -/

/-- Characterization of a successful `Weather` construction. -/
theorem mkWeather_ok_iff (t fl mn mx p h v ws wd : ℚ) (cond : WeatherCondition)
    (desc : String) (ts : ℤ) (w : Weather) :
    mkWeather t fl mn mx p h v ws wd cond desc ts = .ok w ↔
      (¬ t < absoluteZeroCelsius ∧ ¬ (h < 0 ∨ h > 100) ∧ ¬ p < 0 ∧
        w = { temperature := t, feelsLike := fl, minTemperature := mn,
              maxTemperature := mx, pressure := p, humidity := h,
              visibility := v, windSpeed := ws, windDirection := wd,
              condition := cond, description := desc, timestamp := ts }) := by
  unfold mkWeather validateTemperature validateHumidity validatePressure
  split_ifs with h1 h2 h3 <;> simp_all [eq_comm]


/-- Self-distance is zero for the haversine implementation. -/
theorem distanceTo_self (c : Coordinates) : distanceTo c c = 0 := by
  unfold distanceTo toRadians jsAtan2
  simp

/-- The condition table sends each known string to its enum pair and
everything else to `.clear`. -/
theorem conditionLookup_spec (s : String) :
    (s, (API_CONDITION_TO_DOMAIN s).getD .clear) ∈ knownConditionPairs ∨
    (s ∉ knownConditionPairs.map Prod.fst ∧
      (API_CONDITION_TO_DOMAIN s).getD .clear = .clear) := by
  unfold API_CONDITION_TO_DOMAIN knownConditionPairs
  split_ifs with h1 h2 h3 h4 h5 h6 h7 h8 h9 <;>
    first
      | (subst_vars; left; decide)
      | (right; simp_all [List.mem_map])

/-- `mapAPIToWeather` depends on the clock only through the stored
timestamp. -/
theorem mapAPIToWeather_timestamp (now1 now2 : ℤ) (r : ApiResp) :
    (mapAPIToWeather now1 r).map (fun w => { w with timestamp := 0 }) =
    (mapAPIToWeather now2 r).map (fun w => { w with timestamp := 0 }) := by
  unfold mapAPIToWeather mkWeather
  rcases hw : r.weather with _ | ⟨pw, rest⟩ <;>
    rcases h1 : validateTemperature r.main.temp with e1 | u1 <;>
      rcases h2 : validateHumidity r.main.humidity with e2 | u2 <;>
        rcases h3 : validatePressure r.main.pressure with e3 | u3 <;>
          simp [hw, h1, h2, h3, Except.map]

/-- `tryVariantList` returns the first successful attempt in list order,
and its call trace is exactly the attempted prefix (every failure plus the
first success). -/
theorem tryVariantList_spec (client : WeatherAPIClientModel) (now : ℤ)
    (unitsParam : Option String) (l : List (String × Option String)) :
    (tryVariantList client now unitsParam l).1 =
      firstOkResult (l.map (fun p => attemptCityVariant client now p.1 p.2 unitsParam)) ∧
    (tryVariantList client now unitsParam l).2 =
      (l.map (fun p => ClientCall.byName p.1 p.2 unitsParam)).take
        (((l.map (fun p => attemptCityVariant client now p.1 p.2 unitsParam)).takeWhile
          (fun r => !r.isOk)).length + 1) := by
  induction l with
  | nil => simp [tryVariantList, firstOkResult]
  | cons p rest ih =>
    rcases ha : attemptCityVariant client now p.1 p.2 unitsParam with e | r
    · simp [tryVariantList, ha, firstOkResult, ih.1, ih.2, Except.isOk, Except.toBool,
        List.takeWhile]
    · simp [tryVariantList, ha, firstOkResult, Except.isOk, Except.toBool, List.takeWhile]

/-- Variant attempts only issue `byName` calls. -/
theorem tryVariantList_no_dynamic (client : WeatherAPIClientModel) (now : ℤ)
    (unitsParam : Option String) (l : List (String × Option String)) :
    ((tryVariantList client now unitsParam l).2.any ClientCall.isDynamicSearch) = false := by
  induction l with
  | nil => simp [tryVariantList]
  | cons p rest ih =>
    rcases ha : attemptCityVariant client now p.1 p.2 unitsParam with e | r <;>
      simp [tryVariantList, ha, ClientCall.isDynamicSearch, ih]

/-- The per-country batch never issues a dynamic country search. -/
theorem getWeatherForCities_no_dynamic (client : WeatherAPIClientModel) (now : ℤ)
    (cities : List String) (countryCode : String) :
    ((getWeatherForCities client now cities countryCode).2.any ClientCall.isDynamicSearch) = false := by
  induction cities with
  | nil => simp [getWeatherForCities]
  | cons n rest ih =>
    rcases hr : (tryGetWeatherForCityInCountry client now n countryCode none).1 with _ | r <;>
      simp [getWeatherForCities, hr, ih, List.any_append,
        tryVariantList_no_dynamic client now none, tryGetWeatherForCityInCountry]

/-- After a `Map.set`, looking the key up yields the new entry. -/
theorem lookup_mapSetEntry (l : List (String × CacheEntry)) (k : String) (e : CacheEntry) :
    (mapSetEntry l k e).lookup k = some e := by
  induction l with
  | nil => simp [mapSetEntry]
  | cons p rest ih =>
    by_cases h : p.1 = k
    · simp [mapSetEntry, h, List.lookup]
    · have hb : (k == p.1) = false := beq_eq_false_iff_ne.mpr (Ne.symm h)
      simp [mapSetEntry, h, ih, List.lookup, hb]

/-! ## Claims -/

/-- C4 (counterexample): the claim requires temperature at least 0 on the
stored Kelvin scale and pressure strictly positive, yet the constructor
accepts a Weather whose stored temperature is -100 and whose pressure
is 0. -/
theorem weatherConstructionAcceptsSubKelvinAndZeroPressure :
    mkWeather (-100) (-100) (-100) (-100) 0 50 10000 0 0 .clear "frio" 0 =
      .ok { temperature := -100, feelsLike := -100, minTemperature := -100,
            maxTemperature := -100, pressure := 0, humidity := 50,
            visibility := 10000, windSpeed := 0, windDirection := 0,
            condition := .clear, description := "frio", timestamp := 0 } ∧
    ¬ ((0 : ℚ) ≤ (-100 : ℚ)) ∧ ¬ ((0 : ℚ) > (0 : ℚ)) :=
  ⟨by decide, by decide, by decide⟩

/-- C4 (amended): construction succeeds exactly when the stored (Kelvin)
temperature is at least -273.15, humidity lies in [0, 100] and pressure is
nonnegative; a successful construction stores every argument unchanged,
and the entity is immutable (a structure with no mutating operation). -/
theorem weatherConstructionInvariant (t fl mn mx p h v ws wd : ℚ)
    (cond : WeatherCondition) (desc : String) (ts : ℤ) :
    ((∃ w, mkWeather t fl mn mx p h v ws wd cond desc ts = .ok w) ↔
      (absoluteZeroCelsius ≤ t ∧ 0 ≤ h ∧ h ≤ 100 ∧ 0 ≤ p)) ∧
    (∀ w, mkWeather t fl mn mx p h v ws wd cond desc ts = .ok w →
      w = { temperature := t, feelsLike := fl, minTemperature := mn,
            maxTemperature := mx, pressure := p, humidity := h,
            visibility := v, windSpeed := ws, windDirection := wd,
            condition := cond, description := desc, timestamp := ts }) := by
  constructor
  · constructor
    · rintro ⟨w, hw⟩
      obtain ⟨n1, n2, n3, -⟩ := (mkWeather_ok_iff t fl mn mx p h v ws wd cond desc ts w).mp hw
      rw [not_or] at n2
      exact ⟨not_lt.mp n1, not_lt.mp n2.1, not_lt.mp n2.2, not_lt.mp n3⟩
    · intro hb
      refine ⟨_, (mkWeather_ok_iff t fl mn mx p h v ws wd cond desc ts _).mpr
        ⟨not_lt.mpr hb.1, ?_, not_lt.mpr hb.2.2.2, rfl⟩⟩
      rw [not_or]
      exact ⟨not_lt.mpr hb.2.1, not_lt.mpr hb.2.2.1⟩
  · intro w hw
    exact ((mkWeather_ok_iff t fl mn mx p h v ws wd cond desc ts w).mp hw).2.2.2

/-- C4 (witness): the amended invariant applied at a concrete valid
construction. -/
theorem weatherConstructionInvariantWitness :
    ∃ w, mkWeather 288 288 288 288 1013 50 10000 0 0 .clear "templado" 0 = .ok w :=
  (weatherConstructionInvariant 288 288 288 288 1013 50 10000 0 0 .clear "templado" 0).1.mpr
    ⟨by decide, by decide, by decide, by decide⟩


/-- C3 (counterexample): a provider error whose message is the claim's
lower-case marker "invalid api key" is NOT classified as
`ConfigurationError` — the source matches the exact-case
"Invalid API key" — it falls through to a generic, non-operational
`ApiError`. -/
theorem lowercaseInvalidKeyNotConfigurationError :
    jsIncludes (JsThrow.message (.plainError "invalid api key")) "invalid api key" = true ∧
    handleAPIError (.plainError "invalid api key") "Madrid, ES" =
      .apiError "Error al consultar el clima: invalid api key" "OpenWeatherMap" none false ∧
    handleAPIError (.plainError "invalid api key") "Madrid, ES" ≠
      .configurationError "OpenWeatherMap" (some "API_KEY") :=
  ⟨by decide, by decide, by decide⟩

/-- C3 (amended): the repository classifies provider errors solely by
message content, checking the markers in order — "404"/"not found" →
NotFound, then "401"/"Invalid API key" (exact case) → ConfigurationError,
then "429"/"rate limit" → ApiError.rateLimit, then "timeout"
(case-insensitive) → ApiError.timeout — and otherwise produces a generic
ApiError whose isOperational flag is set exactly when the lowercased
message contains one of the six transient patterns. -/
theorem handleAPIErrorClassification (e : JsThrow) (ctx : String) :
    ((jsIncludes e.message "404" || jsIncludes e.message "not found") = true →
      handleAPIError e ctx = .notFoundError "Ciudad" ctx) ∧
    ((jsIncludes e.message "404" || jsIncludes e.message "not found") = false →
      (jsIncludes e.message "401" || jsIncludes e.message "Invalid API key") = true →
      handleAPIError e ctx = .configurationError "OpenWeatherMap" (some "API_KEY")) ∧
    ((jsIncludes e.message "404" || jsIncludes e.message "not found") = false →
      (jsIncludes e.message "401" || jsIncludes e.message "Invalid API key") = false →
      (jsIncludes e.message "429" || jsIncludes e.message "rate limit") = true →
      handleAPIError e ctx = apiErrorRateLimit "OpenWeatherMap" none) ∧
    ((jsIncludes e.message "404" || jsIncludes e.message "not found") = false →
      (jsIncludes e.message "401" || jsIncludes e.message "Invalid API key") = false →
      (jsIncludes e.message "429" || jsIncludes e.message "rate limit") = false →
      jsIncludes (jsToLower e.message) "timeout" = true →
      handleAPIError e ctx = apiErrorTimeout "OpenWeatherMap" 5000) ∧
    ((jsIncludes e.message "404" || jsIncludes e.message "not found") = false →
      (jsIncludes e.message "401" || jsIncludes e.message "Invalid API key") = false →
      (jsIncludes e.message "429" || jsIncludes e.message "rate limit") = false →
      jsIncludes (jsToLower e.message) "timeout" = false →
      handleAPIError e ctx =
        .apiError ("Error al consultar el clima: " ++ e.message) "OpenWeatherMap" none
          (isOperationalError e.message)) ∧
    (isOperationalError e.message =
      (jsIncludes (jsToLower e.message) "timeout" ||
       jsIncludes (jsToLower e.message) "rate limit" ||
       jsIncludes (jsToLower e.message) "too many requests" ||
       jsIncludes (jsToLower e.message) "network" ||
       jsIncludes (jsToLower e.message) "connection" ||
       jsIncludes (jsToLower e.message) "service unavailable")) := by
  refine ⟨fun h1 => ?_, fun h1 h2 => ?_, fun h1 h2 h3 => ?_,
    fun h1 h2 h3 h4 => ?_, fun h1 h2 h3 h4 => ?_, ?_⟩
  · simp [handleAPIError, h1]
  · simp [handleAPIError, h1, h2]
  · simp [handleAPIError, h1, h2, h3]
  · simp [handleAPIError, h1, h2, h3, h4]
  · simp [handleAPIError, h1, h2, h3, h4]
  · simp [isOperationalError, Bool.or_assoc]

/-- C3 (witness): the classification applied to a concrete 404-marked
message. -/
theorem handleAPIErrorClassificationWitness :
    handleAPIError (.plainError "Error 404") "Paris" = .notFoundError "Ciudad" "Paris" :=
  (handleAPIErrorClassification (.plainError "Error 404") "Paris").1 (by decide)


/-- C2 (code_bug evaluation): with maxRetries = 3 and retryDelay = 1000 ms,
a request whose attempt hits an HTTP 429 carrying `retry-after: 2` is NOT
retried and nothing is waited: the response interceptor has already
replaced the AxiosError by `ApiError.rateLimit`, so `isRateLimitError` and
`isRetryableError` (both test `instanceof AxiosError`) return false and
the loop rethrows after exactly one attempt.  A network error (request
without response) is likewise transformed into `ApiError.timeout`, whose
Spanish message lacks the substring "timeout", and is also terminal after
one attempt.  A 5xx, which the interceptor passes through untransformed,
is retried with delays retryDelay·attempt up to MaxRetriesExceeded, as the
claim says. -/
theorem rateLimit429TerminatedByInterceptor :
    weatherRequestWithRetry (β := Unit)
      ⟨"test-key", "https://api.openweathermap.org/data/2.5", 5000, 3, 1000⟩
      (fun _ => .httpError 429 (some "2")) =
      (.error (.thrown (.apiError "Límite de peticiones excedido. Reintentar después de 2s"
        "OpenWeatherMap" (some 429) true)), 1, []) ∧
    weatherRequestWithRetry (β := Unit)
      ⟨"test-key", "https://api.openweathermap.org/data/2.5", 5000, 3, 1000⟩
      (fun _ => .networkError) =
      (.error (.thrown (.apiError "Tiempo de espera agotado (5000ms)"
        "OpenWeatherMap" none true)), 1, []) ∧
    weatherRequestWithRetry (β := Unit)
      ⟨"test-key", "https://api.openweathermap.org/data/2.5", 5000, 3, 1000⟩
      (fun _ => .httpError 503 none) =
      (.error (.thrown (.applicationError "Fallaron todos los intentos después de 3 veces"
        "MAX_RETRIES_EXCEEDED")), 3, [1000, 2000]) :=
  ⟨by decide, by decide, by decide⟩


/-- `validateLatitude` either accepts (no NaN, in range) or throws a plain
`Error`. -/
theorem validateLatitude_cases (l : JsNum) :
    (l.nan = false ∧ ¬ (l.val < -90 ∨ l.val > 90) ∧ validateLatitude l = .ok ()) ∨
    (∃ m, validateLatitude l = .error (.plainError m)) := by
  unfold validateLatitude
  split_ifs with h1 h2 <;> simp_all

/-- `validateLongitude` either accepts or throws a plain `Error`. -/
theorem validateLongitude_cases (l : JsNum) :
    (l.nan = false ∧ ¬ (l.val < -180 ∨ l.val > 180) ∧ validateLongitude l = .ok ()) ∨
    (∃ m, validateLongitude l = .error (.plainError m)) := by
  unfold validateLongitude
  split_ifs with h1 h2 <;> simp_all

/-- C8 (counterexample): an out-of-range latitude makes construction fail,
but with a plain `Error`, not the `ValidationError` domain class the claim
names. -/
theorem coordinatesOutOfRangeThrowsPlainError :
    mkCoordinates ⟨false, 91⟩ ⟨false, 0⟩ =
      .error (.plainError "La latitud debe estar entre -90 y 90 grados") ∧
    failsWithValidationError (mkCoordinates ⟨false, 91⟩ ⟨false, 0⟩) = false :=
  ⟨by decide, by decide⟩

/-- C8 (amended): for lat ∈ [-90, 90] and lon ∈ [-180, 180], both numbers,
construction succeeds and the haversine self-distance is 0; for a `NaN`
component or one outside its bound, construction fails by throwing a
plain `Error`. -/
theorem coordinatesConstructionAndSelfDistance :
    (∀ lat lon : ℚ, -90 ≤ lat → lat ≤ 90 → -180 ≤ lon → lon ≤ 180 →
      mkCoordinates ⟨false, lat⟩ ⟨false, lon⟩ = .ok ⟨lat, lon⟩ ∧
      distanceTo ⟨lat, lon⟩ ⟨lat, lon⟩ = 0) ∧
    (∀ lat lon : JsNum,
      (lat.nan = true ∨ lat.val < -90 ∨ lat.val > 90 ∨
       lon.nan = true ∨ lon.val < -180 ∨ lon.val > 180) →
      ∃ m, mkCoordinates lat lon = .error (.plainError m)) := by
  constructor
  · intro lat lon h1 h2 h3 h4
    have n1 : ¬ (lat < -90 ∨ lat > 90) := by
      rw [not_or]; exact ⟨not_lt.mpr h1, not_lt.mpr h2⟩
    have n2 : ¬ (lon < -180 ∨ lon > 180) := by
      rw [not_or]; exact ⟨not_lt.mpr h3, not_lt.mpr h4⟩
    refine ⟨?_, distanceTo_self _⟩
    simp [mkCoordinates, validateLatitude, validateLongitude, n1, n2]
  · intro lat lon hbad
    rcases validateLatitude_cases lat with ⟨b1, b2, hok⟩ | ⟨m, herr⟩
    · rcases validateLongitude_cases lon with ⟨c1, c2, hok2⟩ | ⟨m, herr2⟩
      · rw [not_or] at b2 c2
        rcases hbad with h | h | h | h | h | h
        · exact absurd h (by simp [b1])
        · exact absurd h b2.1
        · exact absurd h b2.2
        · exact absurd h (by simp [c1])
        · exact absurd h c2.1
        · exact absurd h c2.2
      · exact ⟨m, by simp [mkCoordinates, hok, herr2]⟩
    · exact ⟨m, by simp [mkCoordinates, herr]⟩

/-- C8 (witness): the amended statement applied at (10, 20). -/
theorem coordinatesConstructionWitness :
    mkCoordinates ⟨false, 10⟩ ⟨false, 20⟩ = .ok ⟨10, 20⟩ ∧
    distanceTo ⟨10, 20⟩ ⟨10, 20⟩ = 0 :=
  coordinatesConstructionAndSelfDistance.1 10 20
    (by decide) (by decide) (by decide) (by decide)


/-- C6: the wire→Weather mapping is a pure function of the response up to
the capture timestamp; an empty conditions array fails with the mapping
error; the primary condition comes from the head of the array and is
mapped through the known table with unrecognized strings defaulting to
Clear; a missing visibility becomes 10000 and a missing wind direction
becomes 0 (wind speed is a required field of the parsed wire type, so a
"missing speed" cannot reach this function). -/
theorem mapAPIToWeatherSpec (now : ℤ) (r : ApiResp) :
    ((mapAPIToWeather now r).map (fun w => { w with timestamp := 0 }) =
      (mapAPIToWeather 0 r).map (fun w => { w with timestamp := 0 })) ∧
    (r.weather = [] →
      mapAPIToWeather now r = .error (.plainError "Formato de respuesta de API inválido")) ∧
    (∀ pw rest w, r.weather = pw :: rest → mapAPIToWeather now r = .ok w →
      ((pw.main, w.condition) ∈ knownConditionPairs ∨
        (pw.main ∉ knownConditionPairs.map Prod.fst ∧ w.condition = .clear)) ∧
      (r.visibility = none → w.visibility = 10000) ∧
      (r.windDeg = none → w.windDirection = 0) ∧
      w.description = pw.description ∧
      w.temperature = r.main.temp ∧ w.pressure = r.main.pressure ∧
      w.humidity = r.main.humidity) := by
  refine ⟨mapAPIToWeather_timestamp now 0 r, fun he => ?_, fun pw rest w hw hok => ?_⟩
  · simp [mapAPIToWeather, he]
  · simp only [mapAPIToWeather, hw] at hok
    rcases hmk : mkWeather r.main.temp r.main.feels_like r.main.temp_min r.main.temp_max
        r.main.pressure r.main.humidity (jsOrOptQ r.visibility 10000) (jsOrQ r.windSpeed 0)
        (jsOrOptQ r.windDeg 0) ((API_CONDITION_TO_DOMAIN pw.main).getD .clear)
        pw.description now with e | w2
    · simp [hmk] at hok
    · simp only [hmk] at hok
      obtain rfl : w2 = w := by simpa using hok
      obtain ⟨-, -, -, hw2⟩ := (mkWeather_ok_iff _ _ _ _ _ _ _ _ _ _ _ _ _).mp hmk
      subst hw2
      refine ⟨conditionLookup_spec pw.main, fun hv => ?_, fun hd => ?_, rfl, rfl, rfl, rfl⟩
      · simp [jsOrOptQ, hv]
      · simp [jsOrOptQ, hd]

/-- C6 (witness): the mapping applied to a concrete response with an empty
conditions array. -/
theorem mapAPIToWeatherSpecWitness :
    mapAPIToWeather 0
      { coordLat := 0, coordLon := 0, weather := [],
        main := ⟨293, 293, 293, 293, 1013, 50⟩, windSpeed := 0, dt := 0,
        name := "Madrid", cod := 200 } =
      .error (.plainError "Formato de respuesta de API inválido") :=
  (mapAPIToWeatherSpec 0 _).2.1 rfl


/-- C10: every coordinates query served through the keyless Open-Meteo
adapter fails: the adapted wire response always carries the empty string
as its resolved display name, `City.validateName` rejects empty names, so
the mapping throws and `getByCoordinates` returns a classified error —
never a `WeatherResult` — whatever the upstream reading and the rest of
the client are. -/
theorem openMeteoCoordinatesNeverYieldsResult
    (f : String → Option String → Option String → Except JsThrow ApiResp)
    (g : String → ℤ → Except JsThrow (List ApiResp))
    (current : OpenMeteoCurrent) (nowClient now : ℤ)
    (coords : Coordinates) (units : Option TemperatureUnit) :
    (openMeteoAdaptByCoordinates coords.latitude coords.longitude current nowClient).name = "" ∧
    (getByCoordinates
      { byName := f
        byCoordinates := fun la lo _u => .ok (openMeteoAdaptByCoordinates la lo current nowClient)
        citiesByCountry := g } now coords units).isOk = false := by
  refine ⟨rfl, ?_⟩
  have hc : mapAPIToCity
      (openMeteoAdaptByCoordinates coords.latitude coords.longitude current nowClient) =
      .error (.plainError
        "Formato de respuesta de API inválido: El nombre de la ciudad no puede estar vacío") := by
    simp [mapAPIToCity, mkCity, validateCityName, openMeteoAdaptByCoordinates, JsThrow.message]
  rcases hmw : mapAPIToWeather now
      (openMeteoAdaptByCoordinates coords.latitude coords.longitude current nowClient) with e | w
  · simp [getByCoordinates, hmw, Except.isOk, Except.toBool]
  · simp [getByCoordinates, hmw, hc, Except.isOk, Except.toBool]


/-- C9: during a country batch lookup each candidate city is attempted in
exactly the order (original, country), (original, no country),
(normalized, country), (normalized, no country); the first success is the
city's result and its trace stops there; and the batch collects exactly
the successful cities, skipping the failed ones instead of failing. -/
theorem cityVariantOrderAndSkip (client : WeatherAPIClientModel) (now : ℤ)
    (cityName countryCode : String) (unitsParam : Option String)
    (cities : List String) :
    (tryGetWeatherForCityInCountry client now cityName countryCode unitsParam).1 =
      firstOkResult
        ([ (cityName, some countryCode), (cityName, none),
           (normalizeCityNameForApi cityName, some countryCode),
           (normalizeCityNameForApi cityName, none) ].map
          (fun p => attemptCityVariant client now p.1 p.2 unitsParam)) ∧
    (tryGetWeatherForCityInCountry client now cityName countryCode unitsParam).2 =
      ([ (cityName, some countryCode), (cityName, none),
         (normalizeCityNameForApi cityName, some countryCode),
         (normalizeCityNameForApi cityName, none) ].map
        (fun p => ClientCall.byName p.1 p.2 unitsParam)).take
        ((([ (cityName, some countryCode), (cityName, none),
             (normalizeCityNameForApi cityName, some countryCode),
             (normalizeCityNameForApi cityName, none) ].map
            (fun p => attemptCityVariant client now p.1 p.2 unitsParam)).takeWhile
          (fun r => !r.isOk)).length + 1) ∧
    getWeatherForCities client now cities countryCode =
      (cities.filterMap
        (fun n => (tryGetWeatherForCityInCountry client now n countryCode none).1),
       (cities.map
        (fun n => (tryGetWeatherForCityInCountry client now n countryCode none).2)).flatten) := by
  refine ⟨(tryVariantList_spec client now unitsParam _).1,
    (tryVariantList_spec client now unitsParam _).2, ?_⟩
  induction cities with
  | nil => simp [getWeatherForCities]
  | cons n rest ih =>
    rcases hr : (tryGetWeatherForCityInCountry client now n countryCode none).1 with _ | r <;>
      simp [getWeatherForCities, hr, ih, Prod.ext_iff]


/-- C1: `getByCountry` consults its sources in the fixed order persisted
list → static table → dynamic search, first non-empty city list winning:
a non-empty persisted list is used as-is, and when the persisted source is
unavailable, empty or throws while the static table has the country, the
static table's cities (truncated to the limit) are queried — in both cases
without ever invoking the provider's dynamic `getCitiesByCountry`. -/
theorem getByCountryFallbackOrder (client : WeatherAPIClientModel)
    (persisted : Option (Except JsThrow (List String))) (now : ℤ)
    (countryCode : String) (limit : Option ℤ) :
    (∀ cs, persisted = some (.ok cs) → cs ≠ [] →
      getByCountry client persisted now countryCode limit =
        getWeatherForCities client now (cs.take (maxCitiesFor limit).toNat)
          (jsToUpper countryCode) ∧
      ((getByCountry client persisted now countryCode limit).2.any
        ClientCall.isDynamicSearch) = false) ∧
    ((persisted = none ∨ persisted = some (.ok []) ∨ (∃ e, persisted = some (.error e))) →
      ∀ cs, getCitiesForCountry (jsToUpper countryCode) = some cs → cs ≠ [] →
      getByCountry client persisted now countryCode limit =
        getWeatherForCities client now (cs.take (maxCitiesFor limit).toNat)
          (jsToUpper countryCode) ∧
      ((getByCountry client persisted now countryCode limit).2.any
        ClientCall.isDynamicSearch) = false) := by
  constructor
  · intro cs hp hne
    have hcs : cs.isEmpty = false := by
      cases cs with
      | nil => exact absurd rfl hne
      | cons a l => rfl
    have heq : getByCountry client persisted now countryCode limit =
        getWeatherForCities client now (cs.take (maxCitiesFor limit).toNat)
          (jsToUpper countryCode) := by
      simp [getByCountry, hp, hcs]
    exact ⟨heq, by rw [heq]; exact getWeatherForCities_no_dynamic client now _ _⟩
  · intro hp cs hstatic hne
    have hcs : cs.isEmpty = false := by
      cases cs with
      | nil => exact absurd rfl hne
      | cons a l => rfl
    have heq : getByCountry client persisted now countryCode limit =
        getWeatherForCities client now (cs.take (maxCitiesFor limit).toNat)
          (jsToUpper countryCode) := by
      rcases hp with h | h | ⟨e, h⟩ <;> simp [getByCountry, h, hstatic, hcs]
    exact ⟨heq, by rw [heq]; exact getWeatherForCities_no_dynamic client now _ _⟩

/-- C1 (witness): static-table fallback for "ES" with an unavailable
persisted source and an offline provider. -/
theorem getByCountryFallbackOrderWitness :
    getByCountry
      { byName := fun _ _ _ => .error (.plainError "offline")
        byCoordinates := fun _ _ _ => .error (.plainError "offline")
        citiesByCountry := fun _ _ => .error (.plainError "offline") }
      none 0 "ES" (some 2) =
      getWeatherForCities
        { byName := fun _ _ _ => .error (.plainError "offline")
          byCoordinates := fun _ _ _ => .error (.plainError "offline")
          citiesByCountry := fun _ _ => .error (.plainError "offline") }
        0 ((["Madrid", "Barcelona", "Valencia", "Sevilla", "Bilbao"]).take
            (maxCitiesFor (some 2)).toNat) (jsToUpper "ES") ∧
    ((getByCountry
      { byName := fun _ _ _ => .error (.plainError "offline")
        byCoordinates := fun _ _ _ => .error (.plainError "offline")
        citiesByCountry := fun _ _ => .error (.plainError "offline") }
      none 0 "ES" (some 2)).2.any ClientCall.isDynamicSearch) = false :=
  (getByCountryFallbackOrder _ none 0 "ES" (some 2)).2 (Or.inl rfl)
    ["Madrid", "Barcelona", "Valencia", "Sevilla", "Bilbao"] (by decide) (by decide)

/-- C5: when the persisted source yields nothing, the country is absent
from the static table, and the dynamic search returns no results or
throws, `getByCountry` returns the empty list — and, being total, raises
no error. -/
theorem getByCountryExhaustionEmpty (client : WeatherAPIClientModel)
    (persisted : Option (Except JsThrow (List String))) (now : ℤ)
    (countryCode : String) (limit : Option ℤ)
    (hp : persisted = none ∨ persisted = some (.ok []) ∨ (∃ e, persisted = some (.error e)))
    (hs : getCitiesForCountry (jsToUpper countryCode) = none)
    (hd : client.citiesByCountry (jsToUpper countryCode) (maxCitiesFor limit) = .ok [] ∨
      (∃ e, client.citiesByCountry (jsToUpper countryCode) (maxCitiesFor limit) = .error e)) :
    (getByCountry client persisted now countryCode limit).1 = [] := by
  have hdy : (getByCountryDynamic client now (jsToUpper countryCode) (maxCitiesFor limit)).1 = [] := by
    rcases hd with h | ⟨e, h⟩ <;> simp [getByCountryDynamic, h]
  rcases hp with h | h | ⟨e, h⟩ <;> simp [getByCountry, h, hs, hdy]

/-- C5 (witness): exhaustion at the unknown country code "XX" with an
offline provider. -/
theorem getByCountryExhaustionEmptyWitness :
    (getByCountry
      { byName := fun _ _ _ => .error (.plainError "offline")
        byCoordinates := fun _ _ _ => .error (.plainError "offline")
        citiesByCountry := fun _ _ => .error (.plainError "offline") }
      none 0 "XX" none).1 = [] :=
  getByCountryExhaustionEmpty _ none 0 "XX" none (Or.inl rfl) (by decide)
    (Or.inr ⟨.plainError "offline", rfl⟩)


/-- C7: for a fixed parameter triple, a first `getByCity` miss issues
exactly one provider call and caches the result under
`weather:city:<name>:<country>:<units>`; a second call within the default
600 s TTL issues no provider call and returns the identical cached
`WeatherResult`; a second call after the TTL finds the entry expired —
the read itself purges it from the map — and issues one provider call
again. -/
theorem getByCityCacheBehavior (client : WeatherAPIClientModel)
    (cache0 : MemoryCache) (params : WeatherQueryParams) (now1 now2 : ℤ)
    (resp : ApiResp) (w : Weather) (city : City)
    (h0 : cache0.entries.lookup (cityCacheKey params) = none)
    (h1 : client.byName params.city.name (some params.city.country)
        (params.units.map UNIT_TO_API_PARAM) = .ok resp)
    (h2 : mapAPIToWeather now1 resp = .ok w)
    (h3 : mapAPIToCity resp = .ok city) :
    (getByCity client cache0 now1 params).1 =
      .ok { weather := w, city := city, requestedAt := now1 } ∧
    (getByCity client cache0 now1 params).2.2 =
      [.byName params.city.name (some params.city.country)
        (params.units.map UNIT_TO_API_PARAM)] ∧
    (now2 ≤ now1 + 600000 →
      (getByCity client (getByCity client cache0 now1 params).2.1 now2 params).1 =
        .ok { weather := w, city := city, requestedAt := now1 } ∧
      (getByCity client (getByCity client cache0 now1 params).2.1 now2 params).2.2 = []) ∧
    (now1 + 600000 < now2 →
      cacheGet now2 (cityCacheKey params) (getByCity client cache0 now1 params).2.1 =
        (none, ⟨mapDeleteKey (getByCity client cache0 now1 params).2.1.entries
          (cityCacheKey params)⟩) ∧
      (getByCity client (getByCity client cache0 now1 params).2.1 now2 params).2.2.length = 1) := by
  have hrun1 : getByCity client cache0 now1 params =
      (.ok { weather := w, city := city, requestedAt := now1 },
        cacheSet now1 (cityCacheKey params)
          { weather := w, city := city, requestedAt := now1 } none cache0,
        [.byName params.city.name (some params.city.country)
          (params.units.map UNIT_TO_API_PARAM)]) := by
    simp [getByCity, cacheGet, h0, h1, h2, h3]
  have hlook : (cacheSet now1 (cityCacheKey params)
      { weather := w, city := city, requestedAt := now1 } none cache0).entries.lookup
        (cityCacheKey params) =
      some { value := { weather := w, city := city, requestedAt := now1 },
             expiresAt := now1 + 600000, lastAccessed := now1 } := by
    simp only [cacheSet, Option.getD_none, defaultTtlSeconds]
    exact lookup_mapSetEntry _ _ _
  refine ⟨by rw [hrun1], by rw [hrun1], fun hA => ?_, fun hB => ?_⟩
  · have hnotexp : ¬ (now2 > now1 + 600000) := not_lt.mpr hA
    have hget2 : cacheGet now2 (cityCacheKey params)
        (cacheSet now1 (cityCacheKey params)
          { weather := w, city := city, requestedAt := now1 } none cache0) =
        (some { weather := w, city := city, requestedAt := now1 },
          ⟨mapSetEntry (cacheSet now1 (cityCacheKey params)
              { weather := w, city := city, requestedAt := now1 } none cache0).entries
            (cityCacheKey params)
            { value := { weather := w, city := city, requestedAt := now1 },
              expiresAt := now1 + 600000, lastAccessed := now2 }⟩) := by
      simp [cacheGet, hlook, hnotexp]
    rw [hrun1]
    constructor <;> simp [getByCity, hget2]
  · have hget2 : cacheGet now2 (cityCacheKey params)
        (cacheSet now1 (cityCacheKey params)
          { weather := w, city := city, requestedAt := now1 } none cache0) =
        (none, ⟨mapDeleteKey (cacheSet now1 (cityCacheKey params)
          { weather := w, city := city, requestedAt := now1 } none cache0).entries
          (cityCacheKey params)⟩) := by
      simp [cacheGet, hlook, hB]
    rw [hrun1]
    refine ⟨hget2, ?_⟩
    rcases hW : mapAPIToWeather now2 resp with e | w2
    · simp [getByCity, hget2, h1, hW]
    · rcases hC : mapAPIToCity resp with e2 | c2
      · simp [getByCity, hget2, h1, hW, hC]
      · simp [getByCity, hget2, h1, hW, hC]

/-- C7 (witness): the cache behavior at a concrete Madrid query, second
call 300 s after the first. -/
theorem getByCityCacheBehaviorWitness :
    (getByCity
      { byName := fun _ _ _ => .ok
          { coordLat := 40, coordLon := -3,
            weather := [{ id := 800, main := "Clear", description := "clear sky", icon := "01d" }],
            main := ⟨293, 293, 293, 293, 1013, 50⟩, visibility := some 10000,
            windSpeed := 5, windDeg := some 0, dt := 1634567890,
            sysCountry := some "ES", name := "Madrid", cod := 200 }
        byCoordinates := fun _ _ _ => .error (.plainError "offline")
        citiesByCountry := fun _ _ => .error (.plainError "offline") }
      (getByCity
        { byName := fun _ _ _ => .ok
            { coordLat := 40, coordLon := -3,
              weather := [{ id := 800, main := "Clear", description := "clear sky", icon := "01d" }],
              main := ⟨293, 293, 293, 293, 1013, 50⟩, visibility := some 10000,
              windSpeed := 5, windDeg := some 0, dt := 1634567890,
              sysCountry := some "ES", name := "Madrid", cod := 200 }
          byCoordinates := fun _ _ _ => .error (.plainError "offline")
          citiesByCountry := fun _ _ => .error (.plainError "offline") }
        ⟨[]⟩ 0 { city := { name := "Madrid", country := "ES" }, units := some .celsius }).2.1
      300000 { city := { name := "Madrid", country := "ES" }, units := some .celsius }).1 =
      .ok { weather := { temperature := 293, feelsLike := 293, minTemperature := 293,
                         maxTemperature := 293, pressure := 1013, humidity := 50,
                         visibility := 10000, windSpeed := 5, windDirection := 0,
                         condition := .clear, description := "clear sky", timestamp := 0 },
            city := { name := "Madrid", country := "ES",
                      latitude := some 40, longitude := some (-3) },
            requestedAt := 0 } ∧
    (getByCity
      { byName := fun _ _ _ => .ok
          { coordLat := 40, coordLon := -3,
            weather := [{ id := 800, main := "Clear", description := "clear sky", icon := "01d" }],
            main := ⟨293, 293, 293, 293, 1013, 50⟩, visibility := some 10000,
            windSpeed := 5, windDeg := some 0, dt := 1634567890,
            sysCountry := some "ES", name := "Madrid", cod := 200 }
        byCoordinates := fun _ _ _ => .error (.plainError "offline")
        citiesByCountry := fun _ _ => .error (.plainError "offline") }
      (getByCity
        { byName := fun _ _ _ => .ok
            { coordLat := 40, coordLon := -3,
              weather := [{ id := 800, main := "Clear", description := "clear sky", icon := "01d" }],
              main := ⟨293, 293, 293, 293, 1013, 50⟩, visibility := some 10000,
              windSpeed := 5, windDeg := some 0, dt := 1634567890,
              sysCountry := some "ES", name := "Madrid", cod := 200 }
          byCoordinates := fun _ _ _ => .error (.plainError "offline")
          citiesByCountry := fun _ _ => .error (.plainError "offline") }
        ⟨[]⟩ 0 { city := { name := "Madrid", country := "ES" }, units := some .celsius }).2.1
      300000 { city := { name := "Madrid", country := "ES" }, units := some .celsius }).2.2 = [] :=
  (getByCityCacheBehavior _ ⟨[]⟩
    { city := { name := "Madrid", country := "ES" }, units := some .celsius } 0 300000
    _ _ _ (by decide) rfl (by decide) (by decide)).2.2.1 (by decide)

end WeatherCLI
